import Mathlib

/-!
# Verification of the AIGlucose conversational orchestration engine

A shallow embedding of the conversational engine of `ai_query_interface.py`
together with the pieces of `src/llm_module` it depends on
(`question_bank.py`, `models.py`, `workflow.py`'s persistence helpers).

Modelling conventions:
* Python strings are Lean `String`s; `str.strip()` is `pyStrip`.
* Python `int(...)` / `float(...)` parsing of strings is modelled by
  `pyParseInt` / `pyParseFloat` over `Int` / `ScaledDec` (the standard sign +
  digits / decimal + exponent grammar, kept exact).
* `ch.isalpha()` / `ch.isdigit()` are `Char.isAlpha` / `Char.isDigit`
  (ASCII fragment; all inputs considered are ASCII).
* JSON profile documents are association lists `List (String × JsonVal)`
  with Python-dict semantics (`dictInsert` updates in place, else appends).
* The external LLM capability (`client.complete` + JSON parse +
  `parse_obj`) is a parameter: an *oracle* returning `none` exactly when
  the call raises or the response fails to parse into the expected shape.
* `asyncio` scheduling is sequential in this engine (one outstanding
  operation per session); each engine method is modelled as a state
  transformer over `SessionState`.
-/

namespace AIGlucose

/-- Kernel-computable string helpers.  Core `String.trim` / `toLower` /
`splitOn` / `replace` are defined by well-founded recursion on byte
positions; the embedding uses structurally recursive equivalents over the
character list so that concrete runs evaluate inside proofs. -/
def pyLower (s : String) : String := String.mk (s.toList.map Char.toLower)

/-- `str.strip()`: drop whitespace from both ends. -/
def pyStrip (s : String) : String :=
  String.mk
    (((s.toList.dropWhile Char.isWhitespace).reverse.dropWhile
      Char.isWhitespace).reverse)

/-- `needle in hay` on character lists (Python substring test). -/
def containsSub (hay needle : List Char) : Bool :=
  needle.isPrefixOf hay ||
    match hay with
    | [] => false
    | _ :: t => containsSub t needle

/-- Value of a Python truthiness test `if s:` on an optional string:
`None` and the empty string are falsy. -/
def isTruthy : Option String → Bool
  | none => false
  | some s => s ≠ ""

/-- Python `a or b` for an optional string `a` and default `b`
(`None` and `""` fall through to the default). -/
def orElseStr (o : Option String) (d : String) : String :=
  match o with
  | none => d
  | some s => if s = "" then d else s

/-- Digits of a numeral, most significant first. -/
def digitsToNat (cs : List Char) : Nat :=
  cs.foldl (fun a c => a * 10 + (c.toNat - 48)) 0

/-- Python `int(s)` on a string: optional surrounding whitespace, optional
sign, then a nonempty digit string; anything else raises (`none`). -/
def pyParseInt (s : String) : Option Int :=
  let t := pyStrip s
  match t.toList with
  | [] => none
  | c :: rest =>
    let (sign, digits) : Int × List Char :=
      if c = '-' then (-1, rest)
      else if c = '+' then (1, rest)
      else (1, c :: rest)
    if digits.isEmpty then none
    else if digits.all Char.isDigit then some (sign * (digitsToNat digits : Int))
    else none

/-- An exact decimal value `mantissa * 10 ^ exponent`, the result of
parsing a Python float literal.  (IEEE-754 rounding of decimal literals
is abstracted: values are kept exact.) -/
structure ScaledDec where
  mantissa : Int
  exponent : Int
deriving DecidableEq, Repr

/-- Mantissa of a Python float literal: `digits`, `digits.digits`,
`digits.` or `.digits` (at least one digit overall). -/
def parseMantissa (cs : List Char) : Option ScaledDec :=
  match cs.splitOn '.' with
  | [intPart] =>
    if intPart.isEmpty then none
    else if intPart.all Char.isDigit then some ⟨(digitsToNat intPart : Int), 0⟩
    else none
  | [intPart, fracPart] =>
    let allDigits := intPart ++ fracPart
    if allDigits.isEmpty then none
    else if allDigits.all Char.isDigit then
      some ⟨(digitsToNat allDigits : Int), -(fracPart.length : Int)⟩
    else none
  | _ => none

/-- Optional sign followed by a nonempty digit string (exponent part). -/
def parseSignedDigits (cs : List Char) : Option Int :=
  match cs with
  | [] => none
  | c :: rest =>
    let (sign, digits) : Int × List Char :=
      if c = '-' then (-1, rest)
      else if c = '+' then (1, rest)
      else (1, c :: rest)
    if digits.isEmpty then none
    else if digits.all Char.isDigit then some (sign * (digitsToNat digits : Int))
    else none

/-- Python `float(s)` on a string, as an exact scaled decimal:
optional surrounding whitespace and sign, mantissa, optional exponent
(Python's underscore separators and `inf`/`nan` literals are outside the
fragment any claim exercises). -/
def pyParseFloat (s : String) : Option ScaledDec :=
  let t := (pyLower (pyStrip s)).toList
  match t with
  | [] => none
  | c :: rest =>
    let (sign, body) : Int × List Char :=
      if c = '-' then (-1, rest)
      else if c = '+' then (1, rest)
      else (1, c :: rest)
    match body.splitOn 'e' with
    | [mant] => (parseMantissa mant).map (fun d => ⟨sign * d.mantissa, d.exponent⟩)
    | [mant, expo] =>
      match parseMantissa mant, parseSignedDigits expo with
      | some d, some e => some ⟨sign * d.mantissa, d.exponent + e⟩
      | _, _ => none
    | _ => none

/-- Truncation of a scaled decimal toward zero, as Python `int(float)`. -/
def decTrunc (d : ScaledDec) : Int :=
  if 0 ≤ d.exponent then d.mantissa * (10 : Int) ^ d.exponent.toNat
  else
    (if d.mantissa < 0 then -1 else 1)
      * ((d.mantissa.natAbs / (10 : Nat) ^ (-d.exponent).toNat : Nat) : Int)

/-- `m / 10 ^ k` rounded to the nearest integer, ties to even
(the decimal rounding used by Python's fixed-point formatting). -/
def halfEvenDivPow10 (m : Int) (k : Nat) : Int :=
  let d : Int := (10 : Int) ^ k
  let q := m.fdiv d
  let r := m.fmod d
  if 2 * r < d then q
  else if d < 2 * r then q + 1
  else if q % 2 = 0 then q else q + 1

/-- `AIQuery._format_required_float`: Python `f"{number:.1f}"`
(one decimal place; binary-float rounding abstracted as exact decimal
round-half-even). -/
def formatRequiredFloat (v : ScaledDec) : String :=
  let e := v.exponent + 1
  let n := if 0 ≤ e then v.mantissa * (10 : Int) ^ e.toNat
    else halfEvenDivPow10 v.mantissa (-e).toNat
  let sign := if n < 0 then "-" else ""
  sign ++ toString (n.natAbs / 10) ++ "." ++ toString (n.natAbs % 10)

/-- `AIQuery._format_field_label` / `key.replace("_", " ")`. -/
def fieldLabel (key : String) : String :=
  String.mk (key.toList.map (fun c => if c = '_' then ' ' else c))

/-! ## JSON values and Python-dict association lists -/

/-- Scalar JSON values as stored in the per-user profile document.
The health fields the engine reads are all scalars; list/object values
do not occur under any key the engine inspects, so the embedding covers
the scalar fragment. -/
inductive JsonVal where
  | null
  | str (s : String)
  | int (n : Int)
  | num (q : ScaledDec)
  | bool (b : Bool)
deriving DecidableEq, Repr

/-- Python `str(value)` on a scalar JSON value.  (`repr` of floats is
abstracted; no claim inspects the rendering of a non-string scalar.) -/
def pyStr : JsonVal → String
  | .null => "None"
  | .str s => s
  | .int n => toString n
  | .num q => toString q.mantissa ++ "e" ++ toString q.exponent
  | .bool b => if b then "True" else "False"

/-- Python `int(value)` on a scalar JSON value (`none` = raises). -/
def pyIntOfVal : JsonVal → Option Int
  | .null => none
  | .str s => pyParseInt s
  | .int n => some n
  | .num q => some (decTrunc q)
  | .bool b => some (if b then 1 else 0)

/-- Python `float(value)` on a scalar JSON value (`none` = raises). -/
def pyFloatOfVal : JsonVal → Option ScaledDec
  | .null => none
  | .str s => pyParseFloat s
  | .int n => some ⟨n, 0⟩
  | .num q => some q
  | .bool b => some (if b then ⟨1, 0⟩ else ⟨0, 0⟩)

/-- A JSON object / Python dict: association list in insertion order. -/
abbrev JsonObj := List (String × JsonVal)

/-- `d[k] = v` on a Python dict: update in place if the key is present
(keeping its position), otherwise append. -/
def dictInsert (d : JsonObj) (k : String) (v : JsonVal) : JsonObj :=
  if (d.lookup k).isSome then
    d.map (fun kv => if kv.1 = k then (k, v) else kv)
  else d ++ [(k, v)]

/-- `d.update(other)` on Python dicts. -/
def dictUpdate (d other : JsonObj) : JsonObj :=
  other.foldl (fun acc kv => dictInsert acc kv.1 kv.2) d

/-! ## Question bank (`src/llm_module/question_bank.py`) -/

/-- A conversational question: the engine's `(category, key, prompt,
required)` tuples and `question_bank.QuestionSpec` records. -/
structure Question where
  category : String
  key : String
  prompt : String
  required : Bool
deriving DecidableEq, Repr

/-- `QUESTION_SPECS`: the full catalogue, in declaration order. -/
def questionSpecs : List Question := [
  ⟨"health", "age", "What is your age in years?", true⟩,
  ⟨"health", "gender", "What is your gender?", true⟩,
  ⟨"health", "weight", "What is your current weight in kilograms?", true⟩,
  ⟨"health", "height", "What is your height in centimetres?", true⟩,
  ⟨"health", "underlying_disease",
    "What underlying disease or type of diabetes do you have?", true⟩,
  ⟨"health", "race", "How would you describe your race or ethnicity?", false⟩,
  ⟨"health", "activity_level",
    "How would you describe your recent exercise or activity level?", false⟩,
  ⟨"meal", "current_glucose_mg_dl",
    "What is your current blood glucose level (mg/dL)?", true⟩,
  ⟨"meal", "desired_food", "What food or meal are you considering right now?", true⟩,
  ⟨"meal", "portion_size_description",
    "How much of that food do you plan to eat (portion size or quantity)?", true⟩,
  ⟨"meal", "meal_timeframe", "When do you plan to eat it?", true⟩,
  ⟨"meal", "additional_notes",
    "Any additional context I should know (activity, symptoms, etc.)?", false⟩]

/-- `HEALTH_FIELD_MAPPING` (dict in declaration order). -/
def healthFieldMapping : List (String × String) := [
  ("age", "age"), ("gender", "gender"), ("weight", "weight_kg"),
  ("height", "height_cm"), ("underlying_disease", "underlying_disease"),
  ("race", "race"), ("activity_level", "activity_level")]

/-- `HEALTH_FIELD_MAPPING.get(key, key)`. -/
def mapHealthField (key : String) : String :=
  (healthFieldMapping.lookup key).getD key

/-- Iteration order of `HEALTH_FIELD_MAPPING` (its keys). -/
def healthFieldKeys : List String := healthFieldMapping.map Prod.fst

/-- `QUESTION_SPEC_BY_KEY` (keys in the catalogue are unique). -/
def questionSpecByKey (key : String) : Option Question :=
  questionSpecs.find? (fun sp => sp.key = key)

/-- `HEALTH_QUESTION_ORDER`. -/
def healthQuestionOrder : List String :=
  (questionSpecs.filter (fun sp => sp.category = "health")).map Question.key

/-! ## LLM response models (`src/llm_module/models.py`) -/

/-- `models.QuestionEvaluation` (pydantic model; `invalid_type` carries
the literal `"unclear_question"` / `"invalid_value"` when present). -/
structure QuestionEvaluation where
  question : String
  ask_again : Bool
  accepted_value : Option String := none
  explanation : Option String := none
  next_question : Option String := none
  invalid_type : Option String := none
deriving DecidableEq, Repr

/-- `models.ProfileUpdateItem`. -/
structure ProfileUpdateItem where
  question : String
  accepted_value : Option String := none
  raw_value : Option String := none
  explanation : Option String := none
deriving DecidableEq, Repr

/-- `models.ProfileUpdateResponse`. -/
structure ProfileUpdateResponse where
  updates : List ProfileUpdateItem := []
  should_ask_again : Bool := false
deriving DecidableEq, Repr

/-- The external validation capability behind `_evaluate_answer`:
`client.complete` on the prompts built from `(key, prompt, answer,
required)`, followed by `strip_json_code_fence`, `json.loads` and
`QuestionEvaluation.parse_obj`.  `none` models a raised exception or an
unparseable response. -/
def Oracle : Type := String → String → String → Bool → Option QuestionEvaluation

/-- The external capability behind `_process_profile_update_request`:
`client.complete` on the prompts built from the profile JSON and the
user's request, followed by fence-stripping, `json.loads` and
`ProfileUpdateResponse.parse_obj`.  `none` models a raised exception or
an unparseable response. -/
def UpdOracle : Type := JsonObj → String → Option ProfileUpdateResponse

/-! ## Answer validation and evaluation (`AIQuery._validate_answer`,
`AIQuery._evaluate_answer`) -/

/-- `AIQuery._validate_answer(key, value) -> (is_valid, normalized,
error_message)`. -/
def validateAnswer (key value : String) : Bool × String × String :=
  if value = "" then
    (false, "", "Please provide your " ++ fieldLabel key ++ ".")
  else if key = "age" then
    match pyParseInt value with
    | none => (false, "", "Please enter your age as a whole number (e.g., 34).")
    | some age =>
      if age ≤ 0 then (false, "", "Age must be a positive number.")
      else (true, toString age, "")
  else if key = "weight" then
    match pyParseFloat value with
    | none => (false, "", "Please enter your weight as a number (e.g., 72 or 72.5).")
    | some weight =>
      if weight.mantissa ≤ 0 then (false, "", "Weight must be a positive number.")
      else (true, formatRequiredFloat weight, "")
  else if key = "height" then
    match pyParseFloat value with
    | none => (false, "", "Please enter your height as a number (e.g., 175 or 175.5).")
    | some height =>
      if height.mantissa ≤ 0 then (false, "", "Height must be a positive number.")
      else (true, formatRequiredFloat height, "")
  else if key = "gender" then
    if value.toList.any Char.isAlpha then (true, value, "")
    else (false, "", "Please enter your gender using letters (e.g., Male, Female).")
  else (true, value, "")

/-- `key in {"age", "gender", "weight", "height"}`. -/
def isDeterministicKey (key : String) : Bool :=
  key = "age" || key = "gender" || key = "weight" || key = "height"

/-- The value `stripped` holds when `_evaluate_answer` reaches the external
call: the trimmed input, reassigned to the deterministic validator's
normalisation for the four structurally-validated keys. -/
def workingValue (key userInput : String) : String :=
  let stripped := pyStrip userInput
  if isDeterministicKey key then (validateAnswer key stripped).2.1 else stripped

/-- `AIQuery._evaluate_answer(key, prompt_text, user_input, required)`,
parameterised by the external validation capability. -/
def evaluateAnswer (oracle : Oracle) (key promptText userInput : String)
    (required : Bool) : QuestionEvaluation :=
  let stripped := pyStrip userInput
  if key = "desired_food" then
    if stripped = "" && required then
      ⟨key, true, some "", some ("Please provide your " ++ fieldLabel key ++ "."),
        none, none⟩
    else ⟨key, false, some stripped, none, none, none⟩
  else if stripped = "" then
    if required then
      ⟨key, true, none, some ("Please provide your " ++ fieldLabel key ++ "."),
        none, none⟩
    else ⟨key, false, some "", none, none, none⟩
  else
    let v := validateAnswer key stripped
    if isDeterministicKey key && !v.1 then
      ⟨key, true, none, some v.2.2, none, none⟩
    else
      -- after a successful structural validation the code reassigns
      -- `stripped = normalized_value`; `workingValue` computes exactly
      -- that value in every branch that reaches this point
      let current := workingValue key userInput
      match oracle key promptText current required with
      | none =>
        if required then ⟨key, true, none, none, none, none⟩
        else ⟨key, false, some current, none, none, none⟩
      | some evaluation =>
        match evaluation.accepted_value with
        | none => { evaluation with accepted_value := some current }
        | some _ => evaluation

/-- Whether `_evaluate_answer` reaches the external call on these inputs
(independent of `required`: the empty-input branches return first either
way). -/
def invokesExternal (key userInput : String) : Bool :=
  let stripped := pyStrip userInput
  if key = "desired_food" then false
  else if stripped = "" then false
  else if isDeterministicKey key then (validateAnswer key stripped).1
  else true

/-- `AIQuery._build_retry_message` (Python truthiness on the optional
string fields: `None` and `""` both fall through). -/
def buildRetryMessage (key : String) (evaluation : QuestionEvaluation) : String :=
  if evaluation.invalid_type = some "unclear_question" then
    if isTruthy evaluation.next_question then (evaluation.next_question).getD ""
    else orElseStr evaluation.explanation
      ("Please provide your " ++ fieldLabel key ++ ".")
  else if evaluation.invalid_type = some "invalid_value" then
    let ack := "I understand you\x27re providing your " ++ fieldLabel key ++ "."
    let explanationText := orElseStr evaluation.explanation
      "That value doesn\x27t look right."
    ack ++ " " ++ explanationText
  else
    orElseStr evaluation.explanation
      ("I still need your " ++ fieldLabel key ++ " to continue.")

/-! ## Profile normalisation and prefill helpers -/

/-- `AIQuery._is_missing_profile_value` (`None` or a blank string). -/
def isMissingProfileValue : JsonVal → Bool
  | .null => true
  | .str s => pyStrip s = ""
  | _ => false

/-- `AIQuery._normalize_saved_profile_value(key, value) -> Optional[str]`. -/
def normalizeSavedProfileValue (key : String) (value : JsonVal) : Option String :=
  if key = "age" then
    match pyIntOfVal value with
    | none => none
    | some age => if age ≤ 0 then none else some (toString age)
  else if key = "weight" then
    match pyFloatOfVal value with
    | none => none
    | some weight =>
      if weight.mantissa ≤ 0 then none else some (formatRequiredFloat weight)
  else if key = "height" then
    match pyFloatOfVal value with
    | none => none
    | some height =>
      if height.mantissa ≤ 0 then none else some (formatRequiredFloat height)
  else if key = "gender" then
    let text := pyStrip (pyStr value)
    if text.toList.any Char.isAlpha then some text else none
  else some (pyStrip (pyStr value))

/-! ## Answer store (`AIQuery._store_answer`) -/

/-- One category's answer store: `store` on the `(index_map, answers)`
pair — overwrite in place if the key was already recorded, else append
and record the new index. -/
def storeIntoAnswers (indexMap : List (String × Nat)) (answers : List String)
    (key value : String) : List (String × Nat) × List String :=
  match indexMap.lookup key with
  | some idx => (indexMap, answers.set idx value)
  | none => (indexMap ++ [(key, answers.length)], answers ++ [value])

/-! ## Profile-update helpers -/

/-- `AIQuery._parse_fallback_update`'s scan over `HEALTH_FIELD_MAPPING`'s
keys (`key in lowered` via `containsSub`). -/
def findFallback : List String → String → String → Option ProfileUpdateItem
  | [], _, _ => none
  | key :: rest, lowered, userRequest =>
    if containsSub lowered.toList key.toList then
      if String.mk (lowered.toList.filter (fun ch => ch.isDigit || ch = '.')) ≠ ""
      then
        some ⟨key,
          some (String.mk (lowered.toList.filter (fun ch => ch.isDigit || ch = '.'))),
          some (pyStrip userRequest), none⟩
      else findFallback rest lowered userRequest
    else findFallback rest lowered userRequest

/-- `AIQuery._parse_fallback_update(user_request)`. -/
def parseFallbackUpdate (userRequest : String) : Option ProfileUpdateItem :=
  findFallback healthFieldKeys (pyLower userRequest) userRequest

/-- All digit / decimal-point characters of the lowered request, in order
(the value `_parse_fallback_update` extracts when a key matches). -/
def digitsDots (s : String) : String :=
  String.mk ((pyLower s).toList.filter (fun ch => ch.isDigit || ch = '.'))

/-- `AIQuery._normalize_profile_update_value`. -/
def normalizeProfileUpdateValue (key value : String) : String :=
  if key = "age" then
    match pyParseFloat value with
    | some q => toString (decTrunc q)
    | none => value
  else if key = "weight" || key = "height" then
    match pyParseFloat value with
    | some q => formatRequiredFloat q
    | none => value
  else value

/-- `AIQuery._coerce_profile_value`.  For `age`/`weight`/`height` Python
would raise on an unparseable string (crashing the turn); the embedding is
total and falls back to the raw string — no claim exercises that branch,
every value reaching this point has passed normalisation. -/
def coerceProfileValue (key value : String) : JsonVal :=
  if key = "age" then
    match pyParseInt value with
    | some n => .int n
    | none => .str value
  else if key = "weight" || key = "height" then
    match pyParseFloat value with
    | some q => .num q
    | none => .str value
  else .str value

/-! ## Persistence (`AIQuery._persist_profile_updates` and
`workflow.ensure_user_health_profile.save`) -/

/-- `AIQuery._persist_profile_updates`: refresh `last_updated` in the
in-memory profile dict and `json.dump` that dict over the profile file.
Takes the prior file contents to make the frame behaviour explicit;
returns `(new in-memory profile, new file contents)`. -/
def persistProfileUpdates (profileData : JsonObj) (ts : String)
    (_fileBefore : Option JsonObj) : JsonObj × JsonObj :=
  let pd := dictInsert profileData "last_updated" (.str ts)
  (pd, pd)

/-- `workflow.ensure_user_health_profile.save`: read the existing file
(absent or corrupt ⇒ `{}`), `update` it with the serialised payload, and
write the merge back. -/
def workflowSave (payload : JsonObj) (fileBefore : Option JsonObj) : JsonObj :=
  dictUpdate (fileBefore.getD []) payload

/-! ## Session state (`AIQuery.__init__` fields) -/

/-- The profile-update sub-dialogue states (`PROFILE_UPDATE_*`). -/
inductive PUState where
  | idle
  | promptChoice
  | awaitingDecision
  | requestDetails
  | awaitingDetails
  | confirmation
deriving DecidableEq, Repr

def profileUpdatePromptText : String :=
  "Would you like to review or update your saved health profile?"

def profileUpdateDetailsPromptText : String :=
  "What would you like to update? You can mention fields like weight, height, or diagnosis."

def profileUpdateFollowupPromptText : String :=
  "Would you like to update anything else in your saved health profile?"

def mealPromptText : String :=
  "What dish or ingredients would you like me to turn into a low-GI, balanced recipe?"

/-- The mutable state of one `AIQuery` session, with the payload type of
the pipeline result abstract.  The profile file is carried in the state
(`file`) so that persistence is observable; `pipelineTask : Option Unit`
mirrors `self._pipeline_task`, recording only whether a task handle is
stored.  `mealAnswerIndex` is created lazily in Python
(`getattr(..., None)` then `{}`); starting from the empty map is
observationally identical. -/
structure SessionState (P : Type) where
  userId : Nat
  conversationHistory : List String
  active : Bool
  pipelineResult : Option P
  questions : List Question
  currentQuestion : Option Question
  healthAnswers : List String
  mealAnswers : List String
  healthAnswerIndex : List (String × Nat)
  mealAnswerIndex : List (String × Nat)
  retryMessage : Option String
  messageQueue : List String
  profileUpdateRetryMessage : Option String
  profileUpdateState : PUState
  profileUpdatePromptMessage : String
  profileData : JsonObj
  profileIsComplete : Bool
  storedQuestionsPostPrefill : Option (List Question)
  file : Option JsonObj
  pipelineStarted : Bool
  pipelineTask : Option Unit
  readyForPipeline : Bool
deriving DecidableEq, Repr

/-- `AIQuery._store_answer(q_type, key, value)`. -/
def storeAnswer {P : Type} (s : SessionState P) (qType key value : String) :
    SessionState P :=
  if qType = "health" then
    let r := storeIntoAnswers s.healthAnswerIndex s.healthAnswers key value
    { s with healthAnswerIndex := r.1, healthAnswers := r.2 }
  else
    let r := storeIntoAnswers s.mealAnswerIndex s.mealAnswers key value
    { s with mealAnswerIndex := r.1, mealAnswers := r.2 }

/-! ## Prefill (`AIQuery._load_profile_into_state`) -/

/-- Accumulator of the prefill loop: the `missing_required` and
`prefilled_fields` lists, the rebuilt health-question deque, and the
health answer store being written through
`_store_prefilled_health_answer`. -/
structure PrefillAcc where
  missing : List String
  prefilled : List String
  updated : List Question
  hIndex : List (String × Nat)
  hAnswers : List String
deriving DecidableEq, Repr

/-- One iteration of the prefill loop over a health question. -/
def prefillStep (data : JsonObj) (acc : PrefillAcc) (q : Question) : PrefillAcc :=
  let rawValue := data.lookup (mapHealthField q.key)
  let missingCase : PrefillAcc :=
    { acc with
      missing := if q.required then acc.missing ++ [q.key] else acc.missing,
      updated := acc.updated ++ [q] }
  match rawValue with
  | none => missingCase
  | some raw =>
    if isMissingProfileValue raw then missingCase
    else
      match normalizeSavedProfileValue q.key raw with
      | none =>
        if q.required then
          { acc with missing := acc.missing ++ [q.key], updated := acc.updated ++ [q] }
        else
          { acc with updated := acc.updated ++ [q] }
      | some normalized =>
        let r := storeIntoAnswers acc.hIndex acc.hAnswers q.key normalized
        { acc with prefilled := acc.prefilled ++ [q.key], hIndex := r.1, hAnswers := r.2 }

/-- The prefill loop over the session's queued health questions. -/
def prefillFold {P : Type} (s : SessionState P) (data : JsonObj) : PrefillAcc :=
  (s.questions.filter (fun q => q.category = "health")).foldl (prefillStep data)
    ⟨[], [], [], s.healthAnswerIndex, s.healthAnswers⟩

/-- The consolidated missing-required notice. -/
def missingNotice (missing : List String) : String :=
  "I still need updated information for: "
    ++ String.intercalate ", " (missing.map fieldLabel)
    ++ ". Let\x27s confirm these now."

/-- `AIQuery._load_profile_into_state(data)`. -/
def loadProfileIntoState {P : Type} (s : SessionState P) (data : JsonObj) :
    SessionState P :=
  let s := { s with profileData := data }
  let healthQuestions := s.questions.filter (fun q => q.category = "health")
  let otherQuestions := s.questions.filter (fun q => ¬ q.category = "health")
  if healthQuestions.isEmpty then s
  else
    let acc := prefillFold s data
    let combined := acc.updated ++ otherQuestions
    let s := { s with
      healthAnswerIndex := acc.hIndex,
      healthAnswers := acc.hAnswers,
      questions := combined }
    if ¬ acc.missing.isEmpty then
      { s with messageQueue := s.messageQueue ++ [missingNotice acc.missing] }
    else if ¬ acc.prefilled.isEmpty then
      { s with
        profileIsComplete := true,
        storedQuestionsPostPrefill := some combined,
        questions := [],
        profileUpdateState := .promptChoice,
        profileUpdatePromptMessage := profileUpdatePromptText }
    else s

/-- `AIQuery._prefill_saved_health_profile`: a missing or corrupt profile
file (`none`) is silently ignored. -/
def prefillSavedHealthProfile {P : Type} (s : SessionState P) : SessionState P :=
  match s.file with
  | none => s
  | some data => loadProfileIntoState s data

/-- `AIQuery.__init__(user_id)`: the question deque is seeded with the
single meal question, then the saved profile (the parsed contents of
`user_data/{user_id}.json`, `none` when absent or unparseable) is
prefilled. -/
def initialState (P : Type) (userId : Nat) (file : Option JsonObj) :
    SessionState P :=
  prefillSavedHealthProfile {
    userId := userId,
    conversationHistory := [],
    active := true,
    pipelineResult := none,
    questions := [⟨"meal", "desired_food", mealPromptText, true⟩],
    currentQuestion := none,
    healthAnswers := [],
    mealAnswers := [],
    healthAnswerIndex := [],
    mealAnswerIndex := [],
    retryMessage := none,
    messageQueue := [],
    profileUpdateRetryMessage := none,
    profileUpdateState := .idle,
    profileUpdatePromptMessage := profileUpdatePromptText,
    profileData := [],
    profileIsComplete := false,
    storedQuestionsPostPrefill := none,
    file := file,
    pipelineStarted := false,
    pipelineTask := none,
    readyForPipeline := false }

/-! ## Pipeline hand-off (`AIQuery._ensure_pipeline_started`) -/

/-- Observable behaviour of one `run_food_analysis_pipeline` invocation
through the callbacks handed to it: the notifications it appends via
`notify`, the payload it passes to `store_pipeline_result` (if any), and
whether it calls `stop`. -/
structure PipelineOutcome (P : Type) where
  messages : List String
  stored : Option P
  stopCalled : Bool
deriving DecidableEq, Repr

/-- What a call to `_ensure_pipeline_started` did: started the pipeline,
awaited a stored task handle, or returned immediately. -/
inductive PipelineAction where
  | invoked
  | awaitedTask
  | returnedNoAwait
deriving DecidableEq, Repr

/-- Effect of the pipeline collaborator's callbacks on the session:
`notify` appends to the message queue; `store_pipeline_result` records
the payload and sets `active = False`; `stop` sets `active = False`. -/
def applyPipelineOutcome {P : Type} (s : SessionState P) (o : PipelineOutcome P) :
    SessionState P :=
  let s := { s with messageQueue := s.messageQueue ++ o.messages }
  let s := match o.stored with
    | some p => { s with pipelineResult := some p, active := false }
    | none => s
  if o.stopCalled then { s with active := false } else s

/-- `AIQuery._ensure_pipeline_started`.  When already started it awaits
the stored task handle if one exists, else returns at once; otherwise it
sets `_pipeline_started = True`, resets `_pipeline_task = None`, and runs
the pipeline (whose callback effects are the `pipeline` parameter). -/
def ensurePipelineStarted {P : Type} (pipeline : PipelineOutcome P)
    (s : SessionState P) : SessionState P × PipelineAction :=
  if s.pipelineStarted then
    if s.pipelineTask.isSome then (s, .awaitedTask) else (s, .returnedNoAwait)
  else
    let s := { s with pipelineStarted := true, pipelineTask := none }
    (applyPipelineOutcome s pipeline, .invoked)

/-- A sequence of `_ensure_pipeline_started` calls, recording each call's
action. -/
def runEnsureSeq {P : Type} :
    List (PipelineOutcome P) → SessionState P → SessionState P × List PipelineAction
  | [], s => (s, [])
  | p :: ps, s =>
    let r := ensurePipelineStarted p s
    let rest := runEnsureSeq ps r.1
    (rest.1, r.2 :: rest.2)

/-! ## Profile-update sub-dialogue -/

/-- `AIQuery._apply_health_update(key, cleaned_value)`. -/
def applyHealthUpdate {P : Type} (s : SessionState P) (key cleaned : String) :
    SessionState P :=
  let mapped := mapHealthField key
  let s := { s with profileData :=
    (dictInsert s.profileData mapped (coerceProfileValue key cleaned)) }
  let s := storeAnswer s "health" key cleaned
  if key ∈ healthQuestionOrder then
    { s with questions :=
      (s.questions.filter (fun q => ¬ (q.key = key ∧ q.category = "health"))) }
  else s

/-- `AIQuery._persist_profile_updates` acting on the session (its write
goes to the session's profile file). -/
def persistProfileUpdatesState {P : Type} (ts : String) (s : SessionState P) :
    SessionState P :=
  let r := persistProfileUpdates s.profileData ts s.file
  { s with profileData := r.1, file := some r.2 }

/-- The retry message set when re-evaluation of a proposed update asks
again (`evaluation.explanation or default`, with a truthy
`next_question` appended). -/
def updateRetryText (evaluation : QuestionEvaluation) : String :=
  let base := orElseStr evaluation.explanation
    "That value didn\x27t look right. Could you provide it again?"
  if isTruthy evaluation.next_question then
    base ++ " " ++ (evaluation.next_question).getD ""
  else base

/-- The per-item loop of `_process_profile_update_request`.  `Except`
carries an early `return False` (the state mutated so far plus the retry
message); `ok` carries the final state and the applied field keys. -/
def applyUpdatesLoop {P : Type} (evalO : Oracle) :
    List ProfileUpdateItem → SessionState P → List String →
    Except (SessionState P × String) (SessionState P × List String)
  | [], s, applied => .ok (s, applied)
  | item :: rest, s, applied =>
    if (healthFieldMapping.lookup item.question).isSome then
      let rawValue := pyStrip (item.raw_value.getD "")
      let normalizedValue := pyStrip (orElseStr item.accepted_value rawValue)
      match questionSpecByKey item.question with
      | none => applyUpdatesLoop evalO rest s applied
      | some spec =>
        if isTruthy item.accepted_value then
          let cleaned := normalizeProfileUpdateValue item.question normalizedValue
          applyUpdatesLoop evalO rest (applyHealthUpdate s item.question cleaned)
            (applied ++ [item.question])
        else
          let evaluation := evaluateAnswer evalO item.question spec.prompt
            normalizedValue spec.required
          if evaluation.ask_again then
            .error (s, updateRetryText evaluation)
          else
            let cleanedValue := orElseStr evaluation.accepted_value normalizedValue
            if cleanedValue = "" then
              .error (s, "Please provide your " ++ fieldLabel item.question ++ ".")
            else
              let cleaned := normalizeProfileUpdateValue item.question cleanedValue
              applyUpdatesLoop evalO rest (applyHealthUpdate s item.question cleaned)
                (applied ++ [item.question])
    else applyUpdatesLoop evalO rest s applied

/-- `AIQuery._process_profile_update_request(user_request) -> bool`. -/
def processProfileUpdateRequest {P : Type} (evalO : Oracle) (updO : UpdOracle)
    (ts : String) (userRequest : String) (s : SessionState P) :
    SessionState P × Bool :=
  if pyStrip userRequest = "" then
    ({ s with profileUpdateRetryMessage :=
        (some "Please describe what you want to change in your health profile.") },
      false)
  else
    let response := updO s.profileData userRequest
    let llmUpdates := match response with
      | some r => r.updates
      | none => []
    let shouldAskAgain := match response with
      | some r => r.should_ask_again
      | none => false
    let fallbackResult : Option (List ProfileUpdateItem) :=
      if llmUpdates.isEmpty then
        match parseFallbackUpdate userRequest with
        | some fb => some [fb]
        | none => none
      else some llmUpdates
    match fallbackResult with
    | none =>
      ({ s with profileUpdateRetryMessage :=
          (some "I couldn\x27t interpret that update. Could you rephrase it?") },
        false)
    | some updates =>
      if shouldAskAgain then
        ({ s with profileUpdateRetryMessage :=
            (some "Could you please provide more details or clarify your request?") },
          false)
      else
        match applyUpdatesLoop evalO updates s [] with
        | .error r =>
          ({ r.1 with profileUpdateRetryMessage := some r.2 }, false)
        | .ok r =>
          if r.2.isEmpty then
            ({ r.1 with profileUpdateRetryMessage :=
                (some "I couldn\x27t find any valid fields to update. Could you try again?") },
              false)
          else
            let s := persistProfileUpdatesState ts r.1
            let labels := String.intercalate ", " (r.2.map fieldLabel)
            ({ s with
                profileUpdatePromptMessage := profileUpdateFollowupPromptText,
                profileUpdateRetryMessage := none,
                messageQueue := s.messageQueue ++
                  ["Updated: " ++ labels ++ ".", "Thanks for the update.",
                    profileUpdateFollowupPromptText],
                profileUpdateState := .awaitingDecision },
              true)

/-- `AIQuery._should_prompt_profile_update`. -/
def shouldPromptProfileUpdate {P : Type} (s : SessionState P) : Bool :=
  if s.profileUpdateState = .idle then false
  else if s.currentQuestion.isSome then false
  else if ¬ s.questions.isEmpty then false
  else if ¬ s.profileIsComplete then false
  else true

/-- `AIQuery._ensure_first_prompt_ready`. -/
def ensureFirstPromptReady {P : Type} (s : SessionState P) : SessionState P :=
  if s.profileIsComplete then s
  else if s.currentQuestion.isSome then s
  else
    match s.questions with
    | [] => s
    | q :: rest => { s with currentQuestion := some q, questions := rest }

/-- `AIQuery._next_profile_update_prompt` (the retry message, if truthy,
is returned without being cleared). -/
def nextProfileUpdatePrompt {P : Type} (s : SessionState P) :
    SessionState P × Option String :=
  if isTruthy s.profileUpdateRetryMessage then (s, s.profileUpdateRetryMessage)
  else if s.profileUpdateState = .promptChoice then
    ({ s with profileUpdateState := .awaitingDecision },
      some s.profileUpdatePromptMessage)
  else if s.profileUpdateState = .requestDetails then (s, none)
  else (s, none)

/-- `AIQuery._next_profile_update_prompt_if_needed`. -/
def nextProfileUpdatePromptIfNeeded {P : Type} (s : SessionState P) :
    SessionState P × Option String :=
  if ¬ shouldPromptProfileUpdate s then (ensureFirstPromptReady s, none)
  else nextProfileUpdatePrompt s

/-- `AIQuery._restore_post_update_questions`. -/
def restorePostUpdateQuestions {P : Type} (s : SessionState P) : SessionState P :=
  if ¬ s.profileIsComplete then s
  else
    match s.storedQuestionsPostPrefill with
    | none => s
    | some stored =>
      if ¬ s.questions.isEmpty then s
      else
        let s := { s with questions := stored }
        if s.currentQuestion.isNone then
          match s.questions with
          | [] => s
          | q :: rest => { s with currentQuestion := some q, questions := rest }
        else s

/-- `AIQuery._maybe_progress_after_message`. -/
def maybeProgressAfterMessage {P : Type} (s : SessionState P) :
    SessionState P × Bool :=
  if s.messageQueue.isEmpty then
    let r := nextProfileUpdatePromptIfNeeded s
    match r.2 with
    | some prompt =>
      ({ r.1 with messageQueue := r.1.messageQueue ++ [prompt] }, true)
    | none => (r.1, ¬ r.1.messageQueue.isEmpty)
  else (s, true)

/-- `AIQuery._handle_profile_update_response(user_input) -> bool`. -/
def handleProfileUpdateResponse {P : Type} (evalO : Oracle) (updO : UpdOracle)
    (ts : String) (userInput : String) (s : SessionState P) :
    SessionState P × Bool :=
  if s.profileUpdateState = .idle ∨ s.profileUpdateState = .confirmation then
    (s, false)
  else
    let text := pyLower (pyStrip userInput)
    if s.profileUpdateState = .awaitingDecision then
      if text ∈ ["no", "not now", "skip", "n", "nope"] then
        let s := { s with profileUpdateState := .idle }
        let s := restorePostUpdateQuestions s
        let nextPrompt := s.currentQuestion.map Question.prompt
        let s := { s with messageQueue :=
          (s.messageQueue ++ ["No problem. We\x27ll continue with your saved details."]) }
        let s := match nextPrompt with
          | some p => { s with messageQueue := s.messageQueue ++ [p] }
          | none => s
        maybeProgressAfterMessage s
      else if text ∈ ["yes", "y", "sure", "update", "ok"] then
        let s := { s with profileUpdateState := .awaitingDetails }
        let s := { s with messageQueue :=
          (s.messageQueue ++ ["Great, let\x27s revise your profile.",
            profileUpdateDetailsPromptText]) }
        maybeProgressAfterMessage s
      else
        let s := { s with profileUpdateRetryMessage :=
          (some "I didn\x27t catch that. Please answer \x27yes\x27 or \x27no\x27.") }
        let s := { s with messageQueue :=
          (s.messageQueue ++ [s.profileUpdatePromptMessage]) }
        maybeProgressAfterMessage s
    else if s.profileUpdateState = .awaitingDetails then
      let s := { s with profileUpdateRetryMessage := none }
      let r := processProfileUpdateRequest evalO updO ts userInput s
      if r.2 then maybeProgressAfterMessage r.1 else (r.1, true)
    else (s, false)

/-- `AIQuery._maybe_handle_profile_update_response`. -/
def maybeHandleProfileUpdateResponse {P : Type} (evalO : Oracle) (updO : UpdOracle)
    (ts : String) (userInput : String) (s : SessionState P) :
    SessionState P × Bool :=
  if s.profileUpdateState = .idle then (s, false)
  else handleProfileUpdateResponse evalO updO ts userInput s

/-! ## The four-operation surface -/

/-- `AIQuery.Greeting`. -/
def greeting {P : Type} (_s : SessionState P) : String := ""

/-- The closing fallback of `QueryBody`. -/
def queryBodyFallback {P : Type} (s : SessionState P) : SessionState P × String :=
  if ¬ s.active then
    (s, "Analysing your data and getting a recommendation now.")
  else (s, "Let me know if you have any other details to share.")

/-- `AIQuery.QueryBody`, parameterised by the pipeline collaborator's
behaviour for the (at most one) invocation this call may start. -/
def queryBody {P : Type} (pipeline : PipelineOutcome P) (s : SessionState P) :
    SessionState P × String :=
  if isTruthy s.retryMessage then
    let message := s.retryMessage.getD ""
    let s := { s with retryMessage := none }
    let suffix := match s.currentQuestion with
      | some q => q.prompt
      | none => ""
    (s, pyStrip (message ++ "\n" ++ suffix))
  else
    match s.messageQueue with
    | m :: rest => ({ s with messageQueue := rest }, m)
    | [] =>
      let r := nextProfileUpdatePromptIfNeeded s
      match r.2 with
      | some p => (r.1, p)
      | none =>
        let s := r.1
        let s :=
          if s.currentQuestion.isNone then
            match s.questions with
            | [] => s
            | q :: rest => { s with currentQuestion := some q, questions := rest }
          else s
        match s.currentQuestion with
        | some q => (s, q.prompt)
        | none =>
          if s.readyForPipeline ∧ ¬ s.pipelineStarted then
            let r := ensurePipelineStarted pipeline s
            let s := { r.1 with readyForPipeline := false }
            match s.messageQueue with
            | m :: rest => ({ s with messageQueue := rest }, m)
            | [] => queryBodyFallback s
          else queryBodyFallback s

/-- `AIQuery.ContinueQuery(user_input) -> bool`. -/
def continueQuery {P : Type} (evalO : Oracle) (updO : UpdOracle) (ts : String)
    (userInput : String) (s : SessionState P) : SessionState P × Bool :=
  let s := { s with conversationHistory := s.conversationHistory ++ [userInput] }
  if ¬ s.active then (s, false)
  else
    let handled := maybeHandleProfileUpdateResponse evalO updO ts userInput s
    if handled.2 then (handled.1, handled.1.active)
    else
      let s := handled.1
      match s.currentQuestion with
      | none => (s, s.active)
      | some q =>
        let evaluation := evaluateAnswer evalO q.key q.prompt userInput q.required
        if evaluation.ask_again then
          let s := { s with retryMessage := some (buildRetryMessage q.key evaluation) }
          let s :=
            if isTruthy evaluation.next_question then
              { s with currentQuestion :=
                (some { q with prompt := (evaluation.next_question).getD "" }) }
            else s
          (s, s.active)
        else
          let normalized := orElseStr evaluation.accepted_value (pyStrip userInput)
          let s := storeAnswer s q.category q.key normalized
          let s := { s with currentQuestion := none }
          let s := if s.questions.isEmpty then { s with readyForPipeline := true } else s
          (s, s.active)

/-- The payload of `AIQuery.RequestResult`. -/
structure RequestResultPayload (P : Type) where
  userIdField : Nat
  history : List String
  result : Option P
deriving DecidableEq, Repr

/-- `AIQuery.RequestResult`. -/
def requestResult {P : Type} (s : SessionState P) : RequestResultPayload P :=
  ⟨s.userId, s.conversationHistory, s.pipelineResult⟩

/-! ## Concrete capabilities and states used in the theorems below -/

/-- A capability whose every call fails (raises, or returns a response
that does not parse into the expected shape). -/
def failingOracle : Oracle := fun _ _ _ _ => none

/-- A capability accepting every answer verbatim. -/
def echoOracle : Oracle := fun key _ answer _ =>
  some ⟨key, false, some answer, none, none, none⟩

/-- A capability that accepts but omits the cleaned value. -/
def omitValueOracle : Oracle := fun key _ _ _ =>
  some ⟨key, false, none, none, none, none⟩

/-- A profile-update extraction capability whose every call fails. -/
def failingUpdOracle : UpdOracle := fun _ _ => none

/-- A pipeline collaborator that does nothing observable (never reached
in the runs where it is passed). -/
def silentPipeline : PipelineOutcome String := ⟨[], none, false⟩

/-- A pipeline collaborator that notifies its two recipe messages, stores
its payload through `store_pipeline_result` and calls `stop` — the
behaviour of a successful `run_food_analysis_pipeline`. -/
def storingPipeline : PipelineOutcome String :=
  ⟨["json message", "pretty message"], some "analysis payload", true⟩

/-- A session state holding one pending required health question for
`gender` (the shape `_load_profile_into_state` iterates over). -/
def genderRequiredState : SessionState String :=
  { initialState String 9 none with
    questions := [⟨"health", "gender", "What is your gender?", true⟩] }

/-- The same session state with the `gender` question marked optional. -/
def genderOptionalState : SessionState String :=
  { initialState String 9 none with
    questions := [⟨"health", "gender", "What is your gender?", false⟩] }

/-- A saved profile whose `gender` field is present but unusable
(no alphabetic character), so normalization fails. -/
def genderBadProfile : JsonObj := [("gender", JsonVal.str "123")]

/-- Follows the spec's words (for comparison with the code's behaviour):
the first run of digit / decimal-point characters in the request. -/
def specFirstDigitRun (s : String) : String :=
  String.mk (((pyLower s).toList.dropWhile
    (fun ch => ¬ (ch.isDigit || ch = '.'))).takeWhile
    (fun ch => ch.isDigit || ch = '.'))

/-- The end-to-end run of a fresh session with no persisted profile:
first `QueryBody()`. -/
def c1FirstBody : SessionState String × String :=
  queryBody silentPipeline (initialState String 7 none)

/-- Second step of the fresh-session run: `ContinueQuery("steak and rice")`
(the answer is accepted without consulting any capability, so the failing
oracles are adequate here). -/
def c1AfterAnswer : SessionState String × Bool :=
  continueQuery failingOracle failingUpdOracle "ts" "steak and rice" c1FirstBody.1

/-- Third step of the fresh-session run: the `QueryBody()` that triggers
the pipeline hand-off, with a collaborator that stores its payload. -/
def c1AfterPipeline : SessionState String × String :=
  queryBody storingPipeline c1AfterAnswer.1

end AIGlucose

namespace AIGlucose

/-! ## Helper lemmas -/

theorem lookup_append_right_of_none {α β : Type} [BEq α] [LawfulBEq α]
    (l₁ l₂ : List (α × β)) (k : α) (h : l₁.lookup k = none) :
    (l₁ ++ l₂).lookup k = l₂.lookup k := by
  rw [List.lookup_append, h, Option.none_or]

theorem lookup_map_update_ne (d : JsonObj) (k k' : String) (v : JsonVal)
    (h : ¬ k' = k) :
    (d.map (fun kv => if kv.1 = k then (k, v) else kv)).lookup k' = d.lookup k' := by
  induction d with
  | nil => rfl
  | cons kv rest ih =>
    obtain ⟨a, b⟩ := kv
    simp only [List.map_cons]
    by_cases hk : a = k
    · rw [if_pos hk]
      subst hk
      have hb : (k' == a) = false := by simp [h]
      simp [List.lookup, hb, ih]
    · rw [if_neg hk]
      cases hab : (k' == a) <;> simp [List.lookup, hab, ih]

theorem lookup_dictInsert_ne (d : JsonObj) (k k' : String) (v : JsonVal)
    (h : ¬ k' = k) : (dictInsert d k v).lookup k' = d.lookup k' := by
  unfold dictInsert
  split
  · exact lookup_map_update_ne d k k' v h
  · rw [List.lookup_append]
    have hb : (k' == k) = false := by simp [h]
    have hnone : ([(k, v)] : JsonObj).lookup k' = none := by
      show (match k' == k with | true => some v | false => List.lookup k' []) = none
      rw [hb]
      rfl
    rw [hnone]
    cases d.lookup k' <;> rfl

theorem lookup_dictUpdate_not_mem (other d : JsonObj) (k : String)
    (h : ¬ k ∈ other.map Prod.fst) : (dictUpdate d other).lookup k = d.lookup k := by
  induction other generalizing d with
  | nil => rfl
  | cons kv rest ih =>
    simp only [List.map_cons, List.mem_cons, not_or] at h
    show (dictUpdate (dictInsert d kv.1 kv.2) rest).lookup k = d.lookup k
    rw [ih _ h.2, lookup_dictInsert_ne _ _ _ _ h.1]

theorem applyPipelineOutcome_started {P : Type} (s : SessionState P)
    (o : PipelineOutcome P) :
    (applyPipelineOutcome s o).pipelineStarted = s.pipelineStarted := by
  unfold applyPipelineOutcome
  cases o.stored <;> cases o.stopCalled <;> rfl

theorem applyPipelineOutcome_task {P : Type} (s : SessionState P)
    (o : PipelineOutcome P) :
    (applyPipelineOutcome s o).pipelineTask = s.pipelineTask := by
  unfold applyPipelineOutcome
  cases o.stored <;> cases o.stopCalled <;> rfl

theorem ensure_already_started {P : Type} (p : PipelineOutcome P)
    (s : SessionState P) (h : s.pipelineStarted = true) :
    ensurePipelineStarted p s =
      (s, if s.pipelineTask.isSome then .awaitedTask else .returnedNoAwait) := by
  unfold ensurePipelineStarted
  rw [if_pos h]
  cases hts : s.pipelineTask.isSome <;> simp [hts]

theorem ensure_result_started {P : Type} (p : PipelineOutcome P)
    (s : SessionState P) : (ensurePipelineStarted p s).1.pipelineStarted = true := by
  unfold ensurePipelineStarted
  by_cases h : s.pipelineStarted = true
  · rw [if_pos h]
    cases hts : s.pipelineTask.isSome <;> simp [hts, h]
  · rw [if_neg h]
    simp [applyPipelineOutcome_started]

theorem runEnsureSeq_no_invoke {P : Type} (ps : List (PipelineOutcome P))
    (s : SessionState P) (h : s.pipelineStarted = true) :
    ((runEnsureSeq ps s).2.count PipelineAction.invoked) = 0 := by
  induction ps generalizing s with
  | nil => rfl
  | cons p rest ih =>
    rw [runEnsureSeq, ensure_already_started p s h]
    cases hts : s.pipelineTask.isSome <;>
      simp [hts, List.count_cons, ih _ h]

theorem findFallback_characterization (keys : List String) (lowered r : String) :
    findFallback keys lowered r =
      (match keys.find? (fun k => containsSub lowered.toList k.toList) with
       | some k =>
         if String.mk (lowered.toList.filter (fun ch => ch.isDigit || ch = '.')) = ""
         then none
         else some ⟨k,
           some (String.mk (lowered.toList.filter (fun ch => ch.isDigit || ch = '.'))),
           some (pyStrip r), none⟩
       | none => none) := by
  induction keys with
  | nil => rfl
  | cons k rest ih =>
    rw [findFallback]
    by_cases hc : containsSub lowered.toList k.toList = true
    · rw [if_pos hc,
        show List.find? (fun x => containsSub lowered.toList x.toList) (k :: rest)
            = some k from List.find?_cons_of_pos _ hc]
      by_cases hd :
          String.mk (lowered.toList.filter (fun ch => ch.isDigit || ch = '.')) = ""
      · rw [if_neg (not_not_intro hd)]
        show findFallback rest lowered r =
          (if String.mk (lowered.toList.filter (fun ch => ch.isDigit || ch = '.')) = ""
           then none
           else some (⟨k,
             some (String.mk (lowered.toList.filter (fun ch => ch.isDigit || ch = '.'))),
             some (pyStrip r), none⟩ : ProfileUpdateItem))
        rw [if_pos hd, ih]
        cases hrest : rest.find? (fun x => containsSub lowered.toList x.toList)
        · rfl
        · exact if_pos hd
      · rw [if_pos hd]
        show some (⟨k,
            some (String.mk (lowered.toList.filter (fun ch => ch.isDigit || ch = '.'))),
            some (pyStrip r), none⟩ : ProfileUpdateItem) =
          (if String.mk (lowered.toList.filter (fun ch => ch.isDigit || ch = '.')) = ""
           then none
           else some (⟨k,
             some (String.mk (lowered.toList.filter (fun ch => ch.isDigit || ch = '.'))),
             some (pyStrip r), none⟩ : ProfileUpdateItem))
        rw [if_neg hd]
    · rw [if_neg hc,
        show List.find? (fun x => containsSub lowered.toList x.toList) (k :: rest)
            = List.find? (fun x => containsSub lowered.toList x.toList) rest
          from List.find?_cons_of_neg _ hc, ih]

theorem prefillStep_extend (data : JsonObj) (acc : PrefillAcc) (q : Question) :
    (∃ t, (prefillStep data acc q).updated = acc.updated ++ t) ∧
    (∃ t, (prefillStep data acc q).missing = acc.missing ++ t) := by
  rw [prefillStep]
  rcases hraw : data.lookup (mapHealthField q.key) with _ | raw
  · by_cases hr : q.required = true <;> simp [hr]
  · by_cases hm : isMissingProfileValue raw = true
    · by_cases hr : q.required = true <;> simp [hm, hr]
    · rcases hn : normalizeSavedProfileValue q.key raw with _ | nv
      · by_cases hr : q.required = true <;> simp [hm, hn, hr]
      · simp [hm, hn]

theorem prefillFoldAux_extend (data : JsonObj) (qs : List Question)
    (acc : PrefillAcc) :
    (∃ t, (qs.foldl (prefillStep data) acc).updated = acc.updated ++ t) ∧
    (∃ t, (qs.foldl (prefillStep data) acc).missing = acc.missing ++ t) := by
  induction qs generalizing acc with
  | nil => exact ⟨⟨[], by simp⟩, ⟨[], by simp⟩⟩
  | cons q rest ih =>
    obtain ⟨⟨t1, h1⟩, ⟨t2, h2⟩⟩ := ih (prefillStep data acc q)
    obtain ⟨⟨u1, g1⟩, ⟨u2, g2⟩⟩ := prefillStep_extend data acc q
    refine ⟨⟨u1 ++ t1, ?_⟩, ⟨u2 ++ t2, ?_⟩⟩
    · rw [List.foldl_cons, h1, g1, List.append_assoc]
    · rw [List.foldl_cons, h2, g2, List.append_assoc]

theorem prefillFoldAux_contains (data : JsonObj) (q : Question) (raw : JsonVal)
    (hlook : data.lookup (mapHealthField q.key) = some raw)
    (hmiss : isMissingProfileValue raw = false)
    (hnorm : normalizeSavedProfileValue q.key raw = none) :
    ∀ (qs : List Question) (acc : PrefillAcc), q ∈ qs →
      q ∈ (qs.foldl (prefillStep data) acc).updated ∧
      (q.required = true → q.key ∈ (qs.foldl (prefillStep data) acc).missing) := by
  intro qs
  induction qs with
  | nil => intro acc h; cases h
  | cons q0 rest ih =>
    intro acc hq
    rcases List.mem_cons.mp hq with heq | hmem
    · subst heq
      have hstep_upd : q ∈ (prefillStep data acc q).updated := by
        rw [prefillStep, hlook]
        by_cases hr : q.required = true <;> simp [hmiss, hnorm, hr]
      have hstep_mis : q.required = true → q.key ∈ (prefillStep data acc q).missing := by
        intro hr
        rw [prefillStep, hlook]
        simp [hmiss, hnorm, hr]
      obtain ⟨⟨t1, h1⟩, ⟨t2, h2⟩⟩ :=
        prefillFoldAux_extend data rest (prefillStep data acc q)
      constructor
      · rw [List.foldl_cons, h1]
        exact List.mem_append_left _ hstep_upd
      · intro hr
        rw [List.foldl_cons, h2]
        exact List.mem_append_left _ (hstep_mis hr)
    · rw [List.foldl_cons]
      exact ih _ hmem

/-! ## Claim theorems -/

/-- C1: the claim says a fresh session with no persisted profile greets
with a fixed string, asks the age question first, walks the ten-plus
catalogued questions in declaration order, then invokes the pipeline and
reports the stored payload with `active = false`.  The code's `__init__`
queues only the single `desired_food` meal question — the catalogue is
never queued — so the first `QueryBody()` returns the meal prompt, not
the age prompt; the pipeline is invoked after that one answer.  This run
evaluates the model at the failing input (the repo's own tests expect
the age prompt and prefilled health answers, so the claim matches the
intent and the code is the slip). -/
theorem c1_fresh_session_run :
    greeting (initialState String 7 none) = "" ∧
    (initialState String 7 none).questions
      = [⟨"meal", "desired_food", mealPromptText, true⟩] ∧
    questionSpecs.head? = some ⟨"health", "age", "What is your age in years?", true⟩ ∧
    c1FirstBody.2 = mealPromptText ∧
    ¬ c1FirstBody.2 = "What is your age in years?" ∧
    c1AfterAnswer.2 = true ∧ c1AfterAnswer.1.questions = [] ∧
    c1AfterPipeline.1.pipelineStarted = true ∧
    c1AfterPipeline.2 = "json message" ∧
    (requestResult c1AfterPipeline.1).result = some "analysis payload" ∧
    c1AfterPipeline.1.active = false := by
  decide

/-- C2 counterexample: a pending *optional* health question whose saved
profile value is present but fails normalization ("123" for `gender`) is
NOT dropped from the queue — `_load_profile_into_state` re-queues it
exactly as it does for a required question, refuting the claimed
optional/required asymmetry. -/
theorem c2_optional_norm_failure_not_dropped :
    isMissingProfileValue (JsonVal.str "123") = false ∧
    normalizeSavedProfileValue "gender" (JsonVal.str "123") = none ∧
    (loadProfileIntoState genderOptionalState genderBadProfile).questions
      = [⟨"health", "gender", "What is your gender?", false⟩] := by
  decide

/-- C2 amended: during profile prefill, every health question whose
persisted value is present but fails normalization stays queued —
re-queued in the rebuilt queue, or parked in the post-prefill snapshot
when prefill completes the profile — regardless of its required flag;
required such questions are additionally recorded in the
missing-required list that feeds the consolidated notice. -/
theorem c2_norm_failure_requeues {P : Type} (s : SessionState P) (data : JsonObj)
    (q : Question) (raw : JsonVal) (hq : q ∈ s.questions)
    (hcat : q.category = "health")
    (hlook : data.lookup (mapHealthField q.key) = some raw)
    (hmiss : isMissingProfileValue raw = false)
    (hnorm : normalizeSavedProfileValue q.key raw = none) :
    (q ∈ (loadProfileIntoState s data).questions ∨
      q ∈ ((loadProfileIntoState s data).storedQuestionsPostPrefill.getD [])) ∧
    (q.required = true → q.key ∈ (prefillFold s data).missing) := by
  have hqf : q ∈ s.questions.filter (fun q => q.category = "health") :=
    List.mem_filter.mpr ⟨hq, by simp [hcat]⟩
  have hmain := prefillFoldAux_contains data q raw hlook hmiss hnorm
    (s.questions.filter (fun q => q.category = "health"))
    ⟨[], [], [], s.healthAnswerIndex, s.healthAnswers⟩ hqf
  have hne : (s.questions.filter (fun q => q.category = "health")).isEmpty = false := by
    cases hl : s.questions.filter (fun q => q.category = "health") with
    | nil => rw [hl] at hqf; cases hqf
    | cons a t => rfl
  refine ⟨?_, hmain.2⟩
  rw [loadProfileIntoState]
  simp only [hne, Bool.false_eq_true, if_false]
  by_cases hm : (prefillFold { s with profileData := data } data).missing.isEmpty
  · by_cases hp : (prefillFold { s with profileData := data } data).prefilled.isEmpty
    · simp only [hm, hp]
      left
      exact List.mem_append_left _ hmain.1
    · simp only [hm, hp]
      right
      exact List.mem_append_left _ hmain.1
  · simp only [hm]
    left
    exact List.mem_append_left _ hmain.1

theorem c2_norm_failure_requeues_witness :
    ((⟨"health", "gender", "What is your gender?", true⟩ : Question)
        ∈ (loadProfileIntoState genderRequiredState genderBadProfile).questions ∨
      (⟨"health", "gender", "What is your gender?", true⟩ : Question)
        ∈ ((loadProfileIntoState genderRequiredState
            genderBadProfile).storedQuestionsPostPrefill.getD [])) ∧
    ("gender" : String) ∈ (prefillFold genderRequiredState genderBadProfile).missing :=
  ⟨(c2_norm_failure_requeues genderRequiredState genderBadProfile
      ⟨"health", "gender", "What is your gender?", true⟩ (JsonVal.str "123")
      (by decide) rfl rfl rfl rfl).1,
   (c2_norm_failure_requeues genderRequiredState genderBadProfile
      ⟨"health", "gender", "What is your gender?", true⟩ (JsonVal.str "123")
      (by decide) rfl rfl rfl rfl).2 rfl⟩

/-- C3 counterexample: `_persist_profile_updates` writes the in-memory
profile dict over the file wholesale; a key present on disk but absent
from the session's in-memory profile (here "extra") is destroyed rather
than merged, refuting the claim that every on-disk key the update did
not touch keeps its prior value. -/
theorem c3_wholesale_write_drops_external_key :
    ([("extra", JsonVal.str "keep")] : JsonObj).lookup "extra"
      = some (JsonVal.str "keep") ∧
    ((persistProfileUpdates [("age", JsonVal.int 31)] "2024-05-01"
        (some [("extra", JsonVal.str "keep")])).2).lookup "extra" = none := by
  decide

/-- C3 amended: on a profile-update commit the engine replaces the file
with the in-memory profile document plus a refreshed `last_updated`
(independent of the prior file contents), so keys loaded at session
start and untouched by the update keep their loaded values, while keys
added to the file afterwards are lost; the workflow collaborator's
`save` (in `ensure_user_health_profile`) is the path that does merge
into the existing file. -/
theorem c3_persist_and_workflow_save (pd payload f : JsonObj) (ts : String)
    (f₁ f₂ : Option JsonObj) (k : String) (hk : ¬ k = "last_updated")
    (hp : ¬ k ∈ payload.map Prod.fst) :
    (persistProfileUpdates pd ts f₁).2 = (persistProfileUpdates pd ts f₂).2 ∧
    ((persistProfileUpdates pd ts f₁).2).lookup k = pd.lookup k ∧
    (workflowSave payload (some f)).lookup k = f.lookup k := by
  refine ⟨rfl, ?_, ?_⟩
  · exact lookup_dictInsert_ne pd "last_updated" k (JsonVal.str ts) hk
  · exact lookup_dictUpdate_not_mem payload f k hp

theorem c3_persist_and_workflow_save_witness :
    (persistProfileUpdates [("age", JsonVal.int 31)] "2024-05-01"
        (some [("extra", JsonVal.str "keep")])).2
      = (persistProfileUpdates [("age", JsonVal.int 31)] "2024-05-01" none).2 ∧
    ((persistProfileUpdates [("age", JsonVal.int 31)] "2024-05-01"
        (some [("extra", JsonVal.str "keep")])).2).lookup "extra"
      = ([("age", JsonVal.int 31)] : JsonObj).lookup "extra" ∧
    (workflowSave [("weight_kg", JsonVal.num ⟨120, 0⟩)]
        (some [("extra", JsonVal.str "keep")])).lookup "extra"
      = ([("extra", JsonVal.str "keep")] : JsonObj).lookup "extra" :=
  c3_persist_and_workflow_save [("age", JsonVal.int 31)]
    [("weight_kg", JsonVal.num ⟨120, 0⟩)] [("extra", JsonVal.str "keep")]
    "2024-05-01" (some [("extra", JsonVal.str "keep")]) none "extra"
    (by decide) (by decide)

/-- C4: for the keys age/gender/weight/height, every non-empty input
that fails the deterministic validator makes `_evaluate_answer` return
`ask_again = true` with the validator's field-specific message, and the
result is identical under any two external capabilities — the external
validator is never consulted for such inputs. -/
theorem c4_deterministic_short_circuit (key prompt input : String) (required : Bool)
    (o o' : Oracle) (hkey : isDeterministicKey key = true)
    (hne : ¬ pyStrip input = "")
    (hfail : (validateAnswer key (pyStrip input)).1 = false) :
    evaluateAnswer o key prompt input required =
      ⟨key, true, none, some (validateAnswer key (pyStrip input)).2.2, none, none⟩ ∧
    evaluateAnswer o key prompt input required =
      evaluateAnswer o' key prompt input required := by
  have hdf : ¬ key = "desired_food" := by
    intro hd
    rw [hd] at hkey
    simp [isDeterministicKey] at hkey
  constructor
  · simp [evaluateAnswer, hdf, hne, hkey, hfail]
  · simp [evaluateAnswer, hdf, hne, hkey, hfail]

theorem c4_deterministic_short_circuit_witness :
    evaluateAnswer failingOracle "age" "What is your age in years?" "banana" true =
      ⟨"age", true, none,
        some (validateAnswer "age" (pyStrip "banana")).2.2, none, none⟩ ∧
    evaluateAnswer failingOracle "age" "What is your age in years?" "banana" true =
      evaluateAnswer echoOracle "age" "What is your age in years?" "banana" true :=
  c4_deterministic_short_circuit "age" "What is your age in years?" "banana" true
    failingOracle echoOracle (by decide) (by decide) (by decide)

/-- C5: when the external validation call fails (or its response does
not parse), `_evaluate_answer` on a catalogued question that reaches the
external call returns the generic retry (`ask_again = true`, no
explanation) if the question is required, and accepts the trimmed raw
input as the value if it is optional. -/
theorem c5_external_failure_fallback (sp : Question) (prompt input : String)
    (o : Oracle) (hsp : sp ∈ questionSpecs)
    (hfail : o sp.key prompt (workingValue sp.key input) sp.required = none)
    (hext : invokesExternal sp.key input = true) :
    evaluateAnswer o sp.key prompt input sp.required =
      (if sp.required then ⟨sp.key, true, none, none, none, none⟩
       else ⟨sp.key, false, some (pyStrip input), none, none, none⟩) := by
  have hdf : ¬ sp.key = "desired_food" := by
    intro hd
    rw [invokesExternal, hd] at hext
    simp at hext
  have h0 : ¬ pyStrip input = "" := by
    intro h0
    rw [invokesExternal] at hext
    simp [hdf, h0] at hext
  have hdr : isDeterministicKey sp.key = true → sp.required = true := by
    fin_cases hsp <;> simp [isDeterministicKey]
  by_cases hdet : isDeterministicKey sp.key = true
  · have hv : (validateAnswer sp.key (pyStrip input)).1 = true := by
      rw [invokesExternal] at hext
      simp [hdf, h0, hdet] at hext
      exact hext
    rw [hdr hdet] at hfail ⊢
    simp only [evaluateAnswer, if_neg hdf, if_neg h0, hdet, hv]
    simp [hfail]
  · have hwv : workingValue sp.key input = pyStrip input := by
      rw [workingValue]
      simp [hdet]
    simp only [evaluateAnswer, if_neg hdf, if_neg h0]
    have hb : (isDeterministicKey sp.key
        && !(validateAnswer sp.key (pyStrip input)).1) = false := by
      simp [hdet]
    simp only [hb]
    rw [hwv] at hfail
    simp [hfail, hwv]

theorem c5_external_failure_fallback_witness :
    evaluateAnswer failingOracle "race"
        "How would you describe your race or ethnicity?" " Asian " false =
      (if (false : Bool) then ⟨"race", true, none, none, none, none⟩
       else ⟨"race", false, some (pyStrip " Asian "), none, none, none⟩) :=
  c5_external_failure_fallback
    ⟨"health", "race", "How would you describe your race or ethnicity?", false⟩
    "How would you describe your race or ethnicity?" " Asian " failingOracle
    (by decide) rfl (by decide)

/-- C6: the answer store is overwrite-in-place per key: storing under an
already-recorded key replaces the value at its original index, leaving
the length, the index map and every other position unchanged, and
storing the same key twice never appends a duplicate entry. -/
theorem c6_store_overwrite (m m' : List (String × Nat)) (a a' : List String)
    (key : String) (idx j : Nat) (v w₁ w₂ : String)
    (h : m.lookup key = some idx) (hj : ¬ j = idx) :
    storeIntoAnswers m a key v = (m, a.set idx v) ∧
    (a.set idx v).length = a.length ∧
    (a.set idx v)[j]? = a[j]? ∧
    storeIntoAnswers (storeIntoAnswers m a key w₁).1
        (storeIntoAnswers m a key w₁).2 key w₂ = (m, a.set idx w₂) ∧
    (storeIntoAnswers (storeIntoAnswers m' a' key w₁).1
        (storeIntoAnswers m' a' key w₁).2 key w₂).2.length
      = (storeIntoAnswers m' a' key w₁).2.length := by
  refine ⟨?_, List.length_set .., ?_, ?_, ?_⟩
  · simp [storeIntoAnswers, h]
  · exact List.getElem?_set_ne (fun hh => hj hh.symm)
  · simp [storeIntoAnswers, h, List.set_set]
  · match hm : m'.lookup key with
    | some i => simp [storeIntoAnswers, hm]
    | none =>
      have h2 : (m' ++ [(key, a'.length)]).lookup key = some a'.length := by
        rw [lookup_append_right_of_none _ _ _ hm]
        simp
      simp [storeIntoAnswers, hm, h2]

theorem c6_store_overwrite_witness :
    storeIntoAnswers [("age", 0)] ["30"] "age" "31" = ([("age", 0)], ["31"]) ∧
    (["30"].set 0 "31").length = ["30"].length ∧
    (["30"].set 0 "31")[5]? = ["30"][5]? ∧
    storeIntoAnswers (storeIntoAnswers [("age", 0)] ["30"] "age" "x").1
        (storeIntoAnswers [("age", 0)] ["30"] "age" "x").2 "age" "y"
      = ([("age", 0)], ["y"]) ∧
    (storeIntoAnswers (storeIntoAnswers [] [] "age" "x").1
        (storeIntoAnswers [] [] "age" "x").2 "age" "y").2.length
      = (storeIntoAnswers [] [] "age" "x").2.length :=
  c6_store_overwrite [("age", 0)] [] ["30"] [] "age" 0 5 "31" "x" "y"
    (by decide) (by decide)

/-- C7 counterexample: the pipeline task handle is reset to `None`
before the invocation runs, so the state observed by any later call to
`_ensure_pipeline_started` — including one made while the first
invocation is still running on the worker thread — has
`pipeline_started = True` and `pipeline_task = None`, and such a call
returns immediately (`returnedNoAwait`) instead of awaiting the
in-flight invocation as the claim states. -/
theorem c7_second_call_does_not_await :
    (ensurePipelineStarted silentPipeline (initialState String 1 none)).2
      = PipelineAction.invoked ∧
    (ensurePipelineStarted silentPipeline (initialState String 1 none)).1.pipelineTask
      = none ∧
    (ensurePipelineStarted silentPipeline
        { initialState String 1 none with pipelineStarted := true }).2
      = PipelineAction.returnedNoAwait ∧
    ¬ PipelineAction.returnedNoAwait = PipelineAction.awaitedTask := by
  decide

/-- C7 amended: within one session the pipeline hand-off is invoked at
most once — any sequence of `_ensure_pipeline_started` calls performs at
most one invocation — and because the stored task handle is always
`None`, every call made after the first returns immediately without
re-triggering and without awaiting anything. -/
theorem c7_pipeline_at_most_once (p : PipelineOutcome String)
    (ps : List (PipelineOutcome String)) (s t u : SessionState String)
    (h1 : t.pipelineStarted = true) (h2 : t.pipelineTask = none)
    (hu : u.pipelineTask = none) :
    (runEnsureSeq ps s).2.count PipelineAction.invoked ≤ 1 ∧
    ensurePipelineStarted p t = (t, PipelineAction.returnedNoAwait) ∧
    (ensurePipelineStarted p u).1.pipelineTask = none := by
  refine ⟨?_, ?_, ?_⟩
  · induction ps generalizing s with
    | nil => simp [runEnsureSeq]
    | cons q rest ih =>
      rw [runEnsureSeq]
      by_cases hs : s.pipelineStarted = true
      · rw [ensure_already_started q s hs]
        cases hts : s.pipelineTask.isSome <;>
          simp [hts, List.count_cons, runEnsureSeq_no_invoke rest s hs]
      · have heq : ensurePipelineStarted q s =
            (applyPipelineOutcome
              { s with pipelineStarted := true, pipelineTask := none } q, .invoked) := by
          unfold ensurePipelineStarted
          rw [if_neg hs]
        have hstep : ((ensurePipelineStarted q s).1).pipelineStarted = true :=
          ensure_result_started q s
        rw [heq] at hstep ⊢
        simp [List.count_cons, runEnsureSeq_no_invoke rest _ hstep]
  · rw [ensure_already_started p t h1, h2]
    rfl
  · unfold ensurePipelineStarted
    by_cases h : u.pipelineStarted = true
    · rw [if_pos h]
      cases hts : u.pipelineTask.isSome <;> simp [hts, hu]
    · rw [if_neg h]
      simp [applyPipelineOutcome_task]

theorem c7_pipeline_at_most_once_witness :
    (runEnsureSeq [silentPipeline, storingPipeline]
        (initialState String 1 none)).2.count PipelineAction.invoked ≤ 1 ∧
    ensurePipelineStarted silentPipeline
        { initialState String 1 none with pipelineStarted := true }
      = ({ initialState String 1 none with pipelineStarted := true },
          PipelineAction.returnedNoAwait) ∧
    (ensurePipelineStarted silentPipeline
        { initialState String 1 none with pipelineStarted := true }).1.pipelineTask
      = none :=
  c7_pipeline_at_most_once silentPipeline [silentPipeline, storingPipeline]
    (initialState String 1 none)
    { initialState String 1 none with pipelineStarted := true }
    { initialState String 1 none with pipelineStarted := true }
    rfl rfl rfl

/-- C8 counterexample: on "weight 12 and 34" the fallback extractor
returns the concatenation "1234" of every digit in the request, not the
first run "12" that the claim describes. -/
theorem c8_not_first_run :
    parseFallbackUpdate "weight 12 and 34"
      = some ⟨"weight", some "1234", some "weight 12 and 34", none⟩ ∧
    specFirstDigitRun "weight 12 and 34" = "12" ∧
    ¬ (("1234" : String) = "12") := by
  decide

/-- C8 amended: `_parse_fallback_update` scans the known profile field
names in declaration order; when the first name occurring as a substring
of the lowered request is found and the request contains at least one
digit or decimal-point character, it proposes that field with
`accepted_value` equal to the concatenation of ALL digit/decimal-point
characters of the request (not the first run), and returns no update
when no field name occurs or no such character exists. -/
theorem c8_fallback_concat_all_digits (r : String) :
    parseFallbackUpdate r =
      (match healthFieldKeys.find?
          (fun k => containsSub (pyLower r).toList k.toList) with
       | some k => if digitsDots r = "" then none
           else some ⟨k, some (digitsDots r), some (pyStrip r), none⟩
       | none => none) :=
  findFallback_characterization healthFieldKeys (pyLower r) r

/-- C9 counterexample: for the required `weight` question with input
"72", when the external validator accepts but omits an explicit value,
the evaluator defaults `accepted_value` to the deterministically
normalised "72.0", not to the raw trimmed input "72" as the claim
states. -/
theorem c9_normalized_default_not_raw :
    (evaluateAnswer omitValueOracle "weight"
        "What is your current weight in kilograms?" "72" true).ask_again = false ∧
    pyStrip "72" = "72" ∧
    (evaluateAnswer omitValueOracle "weight"
        "What is your current weight in kilograms?" "72" true).accepted_value
      = some "72.0" ∧
    ¬ ((evaluateAnswer omitValueOracle "weight"
        "What is your current weight in kilograms?" "72" true).accepted_value
      = some "72") := by
  decide

/-- C9 amended: whenever `_evaluate_answer` returns `ask_again = false`
the `accepted_value` is non-null (for every question, required or not),
and when the external validator was consulted and omitted an explicit
value the evaluator defaults to its current working value — the trimmed
input, after deterministic normalisation for age/gender/weight/height. -/
theorem c9_accepted_value_invariant (o : Oracle) (key prompt input : String)
    (required : Bool)
    (h : (evaluateAnswer o key prompt input required).ask_again = false) :
    ¬ (evaluateAnswer o key prompt input required).accepted_value = none ∧
    (invokesExternal key input = true →
      (o key prompt (workingValue key input) required).bind
          (fun e => e.accepted_value) = none →
      (evaluateAnswer o key prompt input required).accepted_value
        = some (workingValue key input)) := by
  by_cases hdf : key = "desired_food"
  · subst hdf
    constructor
    · rw [evaluateAnswer] at h ⊢
      by_cases hc : (pyStrip input = "" && required) = true <;> simp [hc] at h ⊢
    · intro hext
      rw [invokesExternal] at hext
      simp at hext
  · by_cases h0 : pyStrip input = ""
    · constructor
      · rw [evaluateAnswer] at h ⊢
        cases required <;> simp [hdf, h0] at h ⊢
      · intro hext
        rw [invokesExternal] at hext
        simp [hdf, h0] at hext
    · by_cases hv : (isDeterministicKey key
          && !(validateAnswer key (pyStrip input)).1) = true
      · rw [evaluateAnswer] at h
        simp [hdf, h0, hv] at h
      · cases ho : o key prompt (workingValue key input) required with
        | none =>
          cases hr : required with
          | false =>
            subst hr
            constructor
            · rw [evaluateAnswer]
              simp [hdf, h0, hv, ho]
            · intro _ _
              rw [evaluateAnswer]
              simp [hdf, h0, hv, ho]
          | true =>
            subst hr
            rw [evaluateAnswer] at h
            simp [hdf, h0, hv, ho] at h
        | some e =>
          cases he : e.accepted_value with
          | none =>
            constructor
            · rw [evaluateAnswer]
              simp [hdf, h0, hv, ho, he]
            · intro _ _
              rw [evaluateAnswer]
              simp [hdf, h0, hv, ho, he]
          | some val =>
            constructor
            · rw [evaluateAnswer]
              simp [hdf, h0, hv, ho, he]
            · intro _ hbind
              simp [he] at hbind

theorem c9_accepted_value_invariant_witness :
    ¬ (evaluateAnswer failingOracle "race"
        "How would you describe your race or ethnicity?" " Asian " false).accepted_value
      = none ∧
    (evaluateAnswer failingOracle "race"
        "How would you describe your race or ethnicity?" " Asian " false).accepted_value
      = some (workingValue "race" " Asian ") :=
  ⟨(c9_accepted_value_invariant failingOracle "race"
      "How would you describe your race or ethnicity?" " Asian " false (by decide)).1,
   (c9_accepted_value_invariant failingOracle "race"
      "How would you describe your race or ethnicity?" " Asian " false (by decide)).2
     (by decide) rfl⟩

/-- C10: for `desired_food` the evaluator never consults the external
capability — the result is identical under any two capabilities; any
input with non-empty trimmed text is accepted with the trimmed text as
`accepted_value`, and empty input on a required `desired_food` question
asks again with an explanation and `accepted_value` set to the empty
string. -/
theorem c10_desired_food_no_external (o o' : Oracle) (prompt input : String)
    (required : Bool) :
    evaluateAnswer o "desired_food" prompt input required =
      evaluateAnswer o' "desired_food" prompt input required ∧
    evaluateAnswer o "desired_food" prompt input required =
      (if pyStrip input = "" && required then
        ⟨"desired_food", true, some "",
          some "Please provide your desired food.", none, none⟩
      else ⟨"desired_food", false, some (pyStrip input), none, none, none⟩) := by
  have hl : "Please provide your " ++ fieldLabel "desired_food" ++ "."
      = "Please provide your desired food." := by decide
  constructor
  · simp [evaluateAnswer]
  · simp [evaluateAnswer, hl]

end AIGlucose
